import Mathlib

/-!
# Shallow embedding of the DAC8571 I2C DAC driver (dac8571.c / dac8571.h)

The driver is a stateful façade over an injected I2C transaction provider.
We model:
* the handle structure `DAC8571_HandleTypeDef` (the `hi2c` pointer is modelled
  separately: operations receive the transport as an explicit argument, and
  `DAC8571_Init` receives an `Option Unit` standing for the possibly-null
  `I2C_HandleTypeDef *` pointer);
* the HAL transaction primitives as a `Transport` record over an abstract bus
  state `τ` (blocking transmit / receive / device-ready probe, busy flag,
  delay), so each driver operation is a pure state-passing function
  `τ × Option Handle → τ × Option Handle × status`;
* machine integers as `Nat` with explicit reductions: a `uint16_t` parameter
  reduces its argument `% 2 ^ 16` at entry, a `uint8_t` parameter `% 2 ^ 8`,
  C `x >> 8` on unsigned is `x / 2 ^ 8`, `x & 0xFF` is `x % 2 ^ 8`;
* the C `float` voltage as an exact rational `ℚ`; the C cast
  `(uint16_t)` of the non-negative scaled voltage is `Int.floor ∘ toNat`.

Null pointers are modelled with `Option`: a C function taking a possibly-null
handle pointer takes an `Option DAC8571_HandleTypeDef` and returns the updated
one.
-/

/-- `HAL_StatusTypeDef` of the STM32 HAL. -/
inductive HALStatus where
  | ok
  | error
  | busy
  | timeout
deriving DecidableEq, Repr

/-- `HAL_MAX_DELAY`. -/
def HAL_MAX_DELAY : Nat := 0xFFFFFFFF

/-- Error codes (`dac8571.h`). -/
def DAC8571_OK : Int := 0x00

def DAC8571_I2C_ERROR : Int := 0x81

def DAC8571_ADDRESS_ERROR : Int := 0x82

def DAC8571_BUFFER_ERROR : Int := 0x83

/-- Reference voltage `DAC8571_REF_VOLTAGE` (2.5 V), modelled exactly. -/
def DAC8571_REF_VOLTAGE : ℚ := 5 / 2

/-- Power-down modes (`dac8571.h`). -/
def DAC8571_PD_LOW_POWER : Nat := 0x00

def DAC8571_PD_FAST : Nat := 0x01

def DAC8571_PD_1_KOHM : Nat := 0x02

def DAC8571_PD_100_KOHM : Nat := 0x03

def DAC8571_PD_HI_Z : Nat := 0x04

/-- Control byte commands (`dac8571.h`). -/
def DAC8571_CMD_WRITE_TMP : Nat := 0x00

def DAC8571_CMD_WRITE_TMP_PWDN : Nat := 0x01

def DAC8571_CMD_WRITE_AND_UPDATE_DAC : Nat := 0x10

def DAC8571_CMD_WRITE_UPDATE_PWDN : Nat := 0x11

def DAC8571_CMD_UPDATE_FROM_TMP : Nat := 0x20

def DAC8571_CMD_BROADCAST_WRITE_TMP : Nat := 0x30

def DAC8571_CMD_BROADCAST_WRITE_UPDATE : Nat := 0x31

def DAC8571_CMD_BROADCAST_PWDN_ALL : Nat := 0x33

/-- The 8 command bytes accepted by `DAC8571_SetWriteMode` (the `switch` cases). -/
def validWriteModes : List Nat :=
  [DAC8571_CMD_WRITE_TMP, DAC8571_CMD_WRITE_TMP_PWDN,
   DAC8571_CMD_WRITE_AND_UPDATE_DAC, DAC8571_CMD_WRITE_UPDATE_PWDN,
   DAC8571_CMD_UPDATE_FROM_TMP, DAC8571_CMD_BROADCAST_WRITE_TMP,
   DAC8571_CMD_BROADCAST_WRITE_UPDATE, DAC8571_CMD_BROADCAST_PWDN_ALL]

/-- `DAC8571_HandleTypeDef` minus the `hi2c` pointer (the transport is passed
to each operation explicitly). `address` and `lastValue` are `uint16_t`,
`writeMode` is `uint8_t`, `lastError` is `int`. -/
structure DAC8571_HandleTypeDef where
  address : Nat
  lastValue : Nat
  writeMode : Nat
  lastError : Int
deriving DecidableEq, Repr

/-- The I2C transaction provider contract used by the driver
(`HAL_I2C_Master_Transmit`, `HAL_I2C_Master_Receive`,
`HAL_I2C_IsDeviceReady`, `__HAL_I2C_GET_FLAG`/`__HAL_I2C_CLEAR_FLAG` on
`I2C_FLAG_BUSY`, `HAL_Delay`), over an abstract bus state `τ`.
`transmit bus devAddress data timeout`, `receive bus devAddress size timeout`
(returning the received bytes), `isDeviceReady bus devAddress trials timeout`. -/
structure Transport (τ : Type) where
  transmit : τ → Nat → List Nat → Nat → τ × HALStatus
  receive : τ → Nat → Nat → Nat → τ × HALStatus × List Nat
  isDeviceReady : τ → Nat → Nat → Nat → τ × HALStatus
  getBusyFlag : τ → Bool
  clearBusyFlag : τ → τ
  delay : τ → Nat → τ

/-- `DAC8571_Write` body on a non-null handle: build the 3-byte frame
`{writeMode, (uint8_t)(value >> 8), (uint8_t)(value & 0xFF)}` and transmit it
to `address << 1` with timeout 100.  On failure set `lastError = I2C_ERROR`
and return the failing status; on success set `lastValue = value`,
`lastError = OK`. The `value` parameter is `uint16_t`, hence the entry
reduction. -/
def DAC8571_Write_core {τ : Type} (tr : Transport τ) (bus : τ)
    (hd : DAC8571_HandleTypeDef) (value : Nat) :
    τ × DAC8571_HandleTypeDef × HALStatus :=
  let value := value % 2 ^ 16
  let buffer : List Nat := [hd.writeMode, value / 2 ^ 8 % 2 ^ 8, value % 2 ^ 8]
  let r := tr.transmit bus (hd.address * 2 % 2 ^ 16) buffer 100
  if r.2 ≠ HALStatus.ok then
    (r.1, { hd with lastError := DAC8571_I2C_ERROR }, r.2)
  else
    (r.1, { hd with lastValue := value, lastError := DAC8571_OK }, HALStatus.ok)

/-- `DAC8571_Write`: null handle is rejected with `HAL_ERROR` and no bus
traffic; otherwise `DAC8571_Write_core`. -/
def DAC8571_Write {τ : Type} (tr : Transport τ) (bus : τ)
    (h : Option DAC8571_HandleTypeDef) (value : Nat) :
    τ × Option DAC8571_HandleTypeDef × HALStatus :=
  match h with
  | none => (bus, none, HALStatus.error)
  | some hd =>
      let r := DAC8571_Write_core tr bus hd value
      (r.1, some r.2.1, r.2.2)

/-- `DAC8571_IsConnected` body on a non-null handle:
`HAL_I2C_IsDeviceReady(hi2c, address << 1, 1, 10)`; on failure set
`lastError = I2C_ERROR`. -/
def DAC8571_IsConnected_core {τ : Type} (tr : Transport τ) (bus : τ)
    (hd : DAC8571_HandleTypeDef) : τ × DAC8571_HandleTypeDef × HALStatus :=
  let r := tr.isDeviceReady bus (hd.address * 2 % 2 ^ 16) 1 10
  if r.2 ≠ HALStatus.ok then
    (r.1, { hd with lastError := DAC8571_I2C_ERROR }, r.2)
  else
    (r.1, hd, r.2)

/-- `DAC8571_IsConnected`. -/
def DAC8571_IsConnected {τ : Type} (tr : Transport τ) (bus : τ)
    (h : Option DAC8571_HandleTypeDef) :
    τ × Option DAC8571_HandleTypeDef × HALStatus :=
  match h with
  | none => (bus, none, HALStatus.error)
  | some hd =>
      let r := DAC8571_IsConnected_core tr bus hd
      (r.1, some r.2.1, r.2.2)

/-- The bounded presence-probe loop of `DAC8571_Init`
(`for attempt = 1..max_attempts`): stop at the first `HAL_OK` from
`DAC8571_IsConnected`, otherwise `HAL_Delay(25)` and retry; returns whether a
probe succeeded. -/
def initProbeLoop {τ : Type} (tr : Transport τ) (bus : τ)
    (hd : DAC8571_HandleTypeDef) : Nat → τ × DAC8571_HandleTypeDef × Bool
  | 0 => (bus, hd, false)
  | n + 1 =>
      let r := DAC8571_IsConnected_core tr bus hd
      if r.2.2 = HALStatus.ok then (r.1, r.2.1, true)
      else initProbeLoop tr (tr.delay r.1 25) r.2.1 n

/-- `DAC8571_Init`: reject a null handle or null `hi2c` pointer (handle left
exactly as it was), reject an address outside `{0x4C, 0x4E}` (handle left
exactly as it was); otherwise bind the fields
(`lastValue = 0`, `writeMode = WRITE_AND_UPDATE_DAC`, `lastError = OK`),
clear a stale bus-busy flag, and probe presence up to 5 times (the probe
result is only diagnostic). The `address` parameter is `uint8_t`. -/
def DAC8571_Init {τ : Type} (tr : Transport τ) (bus : τ)
    (h : Option DAC8571_HandleTypeDef) (hi2c : Option Unit) (address : Nat) :
    τ × Option DAC8571_HandleTypeDef :=
  match h, hi2c with
  | none, _ => (bus, none)
  | some hd, none => (bus, some hd)
  | some hd, some _ =>
      let address := address % 2 ^ 8
      if address ≠ 0x4C ∧ address ≠ 0x4E then (bus, some hd)
      else
        let hd := { hd with
          address := address, lastValue := 0,
          writeMode := DAC8571_CMD_WRITE_AND_UPDATE_DAC,
          lastError := DAC8571_OK }
        let bus := if tr.getBusyFlag bus then tr.clearBusyFlag bus else bus
        let r := initProbeLoop tr bus hd 5
        (r.1, some r.2.1)

/-- The write loop of `DAC8571_WriteArray`
(`for i = 0..length-1: status = Write(arr[i]); if status != HAL_OK return`),
over the list of the first `length` array elements. -/
def writeArrayLoop {τ : Type} (tr : Transport τ) (bus : τ)
    (hd : DAC8571_HandleTypeDef) : List Nat → τ × DAC8571_HandleTypeDef × HALStatus
  | [] => (bus, hd, HALStatus.ok)
  | v :: rest =>
      let r := DAC8571_Write_core tr bus hd v
      if r.2.2 ≠ HALStatus.ok then r
      else writeArrayLoop tr r.1 r.2.1 rest

/-- `DAC8571_WriteArray`: null handle, null array or `length == 0` are
rejected with `HAL_ERROR` (no state change); then `length > 14` is rejected
with `lastError = BUFFER_ERROR`; otherwise the elements `arr[0..length-1]`
are written sequentially, aborting at the first failing write. The `length`
parameter is `uint8_t`; the array is modelled as a list, indexing as `take`. -/
def DAC8571_WriteArray {τ : Type} (tr : Transport τ) (bus : τ)
    (h : Option DAC8571_HandleTypeDef) (arr : Option (List Nat)) (length : Nat) :
    τ × Option DAC8571_HandleTypeDef × HALStatus :=
  let length := length % 2 ^ 8
  match h, arr with
  | none, _ => (bus, none, HALStatus.error)
  | some hd, none => (bus, some hd, HALStatus.error)
  | some hd, some l =>
      if length = 0 then (bus, some hd, HALStatus.error)
      else if length > 14 then
        (bus, some { hd with lastError := DAC8571_BUFFER_ERROR }, HALStatus.error)
      else
        let r := writeArrayLoop tr bus hd (l.take length)
        (r.1, some r.2.1, r.2.2)

/-- `DAC8571_Read`: null handle returns 0; otherwise receive 3 bytes from
`address << 1 | 0x01` with `HAL_MAX_DELAY`.  On failure set
`lastError = I2C_ERROR` and return 0; on success combine the first two
received bytes big-endian (`(received_data[0] << 8) | received_data[1]`; the
bytes are `uint8_t`, i.e. `< 2 ^ 8`, so the C `|` of the disjoint bit ranges
is addition) and set `lastError = OK`.  The 3-byte buffer is
zero-initialised, so missing bytes read as 0. -/
def DAC8571_Read {τ : Type} (tr : Transport τ) (bus : τ)
    (h : Option DAC8571_HandleTypeDef) :
    τ × Option DAC8571_HandleTypeDef × Nat :=
  match h with
  | none => (bus, none, 0)
  | some hd =>
      let r := tr.receive bus ((hd.address * 2 + 1) % 2 ^ 16) 3 HAL_MAX_DELAY
      if r.2.1 ≠ HALStatus.ok then
        (r.1, some { hd with lastError := DAC8571_I2C_ERROR }, 0)
      else
        let b0 := r.2.2.getD 0 0 % 2 ^ 8
        let b1 := r.2.2.getD 1 0 % 2 ^ 8
        (r.1, some { hd with lastError := DAC8571_OK }, (b0 * 2 ^ 8 + b1) % 2 ^ 16)

/-- The voltage-to-code conversion of `DAC8571_SetVoltage`:
`(uint16_t)((voltage / DAC8571_REF_VOLTAGE) * 65535)` — the float arithmetic
is modelled exactly on `ℚ`, the C cast of the non-negative scaled voltage to
`uint16_t` (truncation) as `Int.floor` then `toNat`. -/
def voltageCode (voltage : ℚ) : Nat :=
  (Int.floor (voltage / DAC8571_REF_VOLTAGE * 65535)).toNat

/-- `DAC8571_SetVoltage`: reject a null handle, a negative voltage or a
voltage above `DAC8571_REF_VOLTAGE` with `HAL_ERROR` (bus untouched);
otherwise delegate to `DAC8571_Write` with `voltageCode voltage`. -/
def DAC8571_SetVoltage {τ : Type} (tr : Transport τ) (bus : τ)
    (h : Option DAC8571_HandleTypeDef) (voltage : ℚ) :
    τ × Option DAC8571_HandleTypeDef × HALStatus :=
  match h with
  | none => (bus, none, HALStatus.error)
  | some hd =>
      if voltage < 0 ∨ voltage > DAC8571_REF_VOLTAGE then
        (bus, some hd, HALStatus.error)
      else
        DAC8571_Write tr bus (some hd) (voltageCode voltage)

/-- `DAC8571_SetWriteMode`: the `switch` accepts exactly the 8 command bytes
of `validWriteModes`, storing the mode; any other value returns `HAL_ERROR`
without mutating state. The `mode` parameter is `uint8_t`. -/
def DAC8571_SetWriteMode (h : Option DAC8571_HandleTypeDef) (mode : Nat) :
    Option DAC8571_HandleTypeDef × HALStatus :=
  match h with
  | none => (none, HALStatus.error)
  | some hd =>
      let mode := mode % 2 ^ 8
      if mode ∈ validWriteModes then
        (some { hd with writeMode := mode }, HALStatus.ok)
      else
        (some hd, HALStatus.error)

/-- `DAC8571_GetWriteMode`: pure accessor; null handle yields 0. -/
def DAC8571_GetWriteMode (h : Option DAC8571_HandleTypeDef) : Nat :=
  match h with
  | none => 0
  | some hd => hd.writeMode

/-- `DAC8571_PowerMode`: reject a null handle; then set
`writeMode = DAC8571_CMD_WRITE_TMP_PWDN` (before the `switch`, so this
happens even for an invalid `pdMode`), encode the power-down mode into bits
15–13 of the value (`0b000`/`0b001`/`0b010`/`0b110`/`0b111` shifted left 13)
and delegate to `DAC8571_Write`; an unrecognized `pdMode` returns `HAL_ERROR`
without touching the bus. The `pdMode` parameter is `uint8_t`. -/
def DAC8571_PowerMode {τ : Type} (tr : Transport τ) (bus : τ)
    (h : Option DAC8571_HandleTypeDef) (pdMode : Nat) :
    τ × Option DAC8571_HandleTypeDef × HALStatus :=
  match h with
  | none => (bus, none, HALStatus.error)
  | some hd =>
      let pdMode := pdMode % 2 ^ 8
      let hd := { hd with writeMode := DAC8571_CMD_WRITE_TMP_PWDN }
      if pdMode = DAC8571_PD_LOW_POWER then
        DAC8571_Write tr bus (some hd) (0 * 2 ^ 13)
      else if pdMode = DAC8571_PD_FAST then
        DAC8571_Write tr bus (some hd) (1 * 2 ^ 13)
      else if pdMode = DAC8571_PD_1_KOHM then
        DAC8571_Write tr bus (some hd) (2 * 2 ^ 13)
      else if pdMode = DAC8571_PD_100_KOHM then
        DAC8571_Write tr bus (some hd) (6 * 2 ^ 13)
      else if pdMode = DAC8571_PD_HI_Z then
        DAC8571_Write tr bus (some hd) (7 * 2 ^ 13)
      else
        (bus, some hd, HALStatus.error)

/-- `DAC8571_WakeUp`: delegates to `DAC8571_Write`. -/
def DAC8571_WakeUp {τ : Type} (tr : Transport τ) (bus : τ)
    (h : Option DAC8571_HandleTypeDef) (value : Nat) :
    τ × Option DAC8571_HandleTypeDef × HALStatus :=
  match h with
  | none => (bus, none, HALStatus.error)
  | some hd => DAC8571_Write tr bus (some hd) value

/-- `DAC8571_Reset`: delegates to `DAC8571_Write(handle, 0)`. -/
def DAC8571_Reset {τ : Type} (tr : Transport τ) (bus : τ)
    (h : Option DAC8571_HandleTypeDef) :
    τ × Option DAC8571_HandleTypeDef × HALStatus :=
  match h with
  | none => (bus, none, HALStatus.error)
  | some hd => DAC8571_Write tr bus (some hd) 0

/-- `DAC8571_GetLastError`: on a null handle return `DAC8571_ADDRESS_ERROR`;
otherwise return the current `lastError` and reset it to `DAC8571_OK`
(read-and-clear). -/
def DAC8571_GetLastError (h : Option DAC8571_HandleTypeDef) :
    Option DAC8571_HandleTypeDef × Int :=
  match h with
  | none => (none, DAC8571_ADDRESS_ERROR)
  | some hd => (some { hd with lastError := DAC8571_OK }, hd.lastError)

/-- `DAC8571_GetAddress`: pure accessor (`uint8_t` return); null handle
yields 0. -/
def DAC8571_GetAddress (h : Option DAC8571_HandleTypeDef) : Nat :=
  match h with
  | none => 0
  | some hd => hd.address % 2 ^ 8

/-!
## Observation transports

To state claims about the bytes that reach the bus we instantiate the
abstract `Transport` with a *recording* transport, whose bus state is the
list of all bus events so far together with a counter, and whose transaction
statuses are scripted per call; and, for the round-trip claim, a *loopback*
transport modelling the device data register.
-/

/-- One observable bus transaction. -/
inductive BusEvent where
  | tx (devAddress : Nat) (data : List Nat) (timeout : Nat)
  | rx (devAddress : Nat) (size : Nat) (timeout : Nat)
  | probe (devAddress : Nat) (trials : Nat) (timeout : Nat)
deriving DecidableEq, Repr

/-- Bus state of the recording transport: the event trace and the number of
status-returning calls made so far. -/
structure RecState where
  trace : List BusEvent
  count : Nat
deriving DecidableEq, Repr

/-- Initial recording state: empty trace. -/
def recInit : RecState := ⟨[], 0⟩

/-- The recording transport: every transaction is appended to the trace, and
the status of the `n`-th transaction is `script n`.  Receives return no
bytes. -/
def recTransport (script : Nat → HALStatus) : Transport RecState where
  transmit s a d t := (⟨s.trace ++ [BusEvent.tx a d t], s.count + 1⟩, script s.count)
  receive s a n t := (⟨s.trace ++ [BusEvent.rx a n t], s.count + 1⟩, script s.count, [])
  isDeviceReady s a k t := (⟨s.trace ++ [BusEvent.probe a k t], s.count + 1⟩, script s.count)
  getBusyFlag _ := false
  clearBusyFlag s := s
  delay s _ := s

/-- The all-success script. -/
def okScript : Nat → HALStatus := fun _ => HALStatus.ok

/-- Loopback bus state: the device data register as last written, as two
bytes (high, low). -/
structure LoopState where
  regHi : Nat
  regLo : Nat
deriving DecidableEq, Repr

/-- A faithful loopback transport: a transmitted 3-byte frame stores its two
value bytes in the register; a receive returns them, high byte first, padded
with 0; every transaction succeeds. -/
def loopbackTransport : Transport LoopState where
  transmit _ _ d _ := (⟨d.getD 1 0, d.getD 2 0⟩, HALStatus.ok)
  receive s _ n _ := (s, HALStatus.ok, List.take n [s.regHi, s.regLo, 0])
  isDeviceReady s _ _ _ := (s, HALStatus.ok)
  getBusyFlag _ := false
  clearBusyFlag s := s
  delay s _ := s

/-!
## Driver operations as a step relation

For the state invariants (claims about every sequence of driver operations)
we package the public mutating API as an operation type and a step function.
-/

/-- One driver API call (its arguments, return values discarded). -/
inductive DacOp where
  | init (hi2c : Option Unit) (address : Nat)
  | write (value : Nat)
  | writeArray (arr : Option (List Nat)) (length : Nat)
  | read
  | isConnected
  | setVoltage (voltage : ℚ)
  | setWriteMode (mode : Nat)
  | getWriteMode
  | powerMode (pdMode : Nat)
  | wakeUp (value : Nat)
  | reset
  | getLastError
  | getAddress

/-- Run one driver API call, keeping the bus state and the handle. -/
def runOp {τ : Type} (tr : Transport τ) (bus : τ)
    (h : Option DAC8571_HandleTypeDef) : DacOp → τ × Option DAC8571_HandleTypeDef
  | DacOp.init hi2c address => DAC8571_Init tr bus h hi2c address
  | DacOp.write value =>
      let r := DAC8571_Write tr bus h value
      (r.1, r.2.1)
  | DacOp.writeArray arr length =>
      let r := DAC8571_WriteArray tr bus h arr length
      (r.1, r.2.1)
  | DacOp.read =>
      let r := DAC8571_Read tr bus h
      (r.1, r.2.1)
  | DacOp.isConnected =>
      let r := DAC8571_IsConnected tr bus h
      (r.1, r.2.1)
  | DacOp.setVoltage voltage =>
      let r := DAC8571_SetVoltage tr bus h voltage
      (r.1, r.2.1)
  | DacOp.setWriteMode mode => (bus, (DAC8571_SetWriteMode h mode).1)
  | DacOp.getWriteMode => (bus, h)
  | DacOp.powerMode pdMode =>
      let r := DAC8571_PowerMode tr bus h pdMode
      (r.1, r.2.1)
  | DacOp.wakeUp value =>
      let r := DAC8571_WakeUp tr bus h value
      (r.1, r.2.1)
  | DacOp.reset =>
      let r := DAC8571_Reset tr bus h
      (r.1, r.2.1)
  | DacOp.getLastError => (bus, (DAC8571_GetLastError h).1)
  | DacOp.getAddress => (bus, h)

/-- Run a sequence of driver API calls. -/
def runOps {τ : Type} (tr : Transport τ) :
    List DacOp → τ × Option DAC8571_HandleTypeDef → τ × Option DAC8571_HandleTypeDef
  | [], s => s
  | op :: ops, s => runOps tr ops (runOp tr s.1 s.2 op)

/-- The driver state invariant of the spec: address on the whitelist, write
mode among the 8 valid command bytes. -/
def HandleInv (hd : DAC8571_HandleTypeDef) : Prop :=
  (hd.address = 0x4C ∨ hd.address = 0x4E) ∧ hd.writeMode ∈ validWriteModes

instance : DecidablePred HandleInv := fun hd => by
  unfold HandleInv
  infer_instance

/-- The transmit event `DAC8571_Write` produces for a handle and a 16-bit
value (used to state trace properties of `DAC8571_WriteArray`). -/
def writeFrame (hd : DAC8571_HandleTypeDef) (v : Nat) : BusEvent :=
  BusEvent.tx (hd.address * 2 % 2 ^ 16)
    [hd.writeMode, v / 2 ^ 8 % 2 ^ 8, v % 2 ^ 8] 100

/-- The power-down mode table of `DAC8571_PowerMode`'s `switch`:
each valid `pdMode` with the 3-bit field it encodes into bits 15–13. -/
def pdTable : List (Nat × Nat) :=
  [(DAC8571_PD_LOW_POWER, 0b000), (DAC8571_PD_FAST, 0b001),
   (DAC8571_PD_1_KOHM, 0b010), (DAC8571_PD_100_KOHM, 0b110),
   (DAC8571_PD_HI_Z, 0b111)]

/-!
## Claims
-/

/-- C1: for every non-null handle and every 16-bit value, `DAC8571_Write`
performs exactly one transmit, of the 3-byte frame
`[writeMode, high byte of value, low byte of value]`, on the handle's
address; if the transmit succeeds it sets `lastValue` to the value and
`lastError` to `DAC8571_OK` and returns `HAL_OK`, and if the transmit fails
it sets `lastError = DAC8571_I2C_ERROR`, returns the failing status, and
leaves `lastValue` unchanged. Stated for an arbitrary transport. -/
theorem DAC8571_Write_correct {τ : Type} (tr : Transport τ) (bus : τ)
    (hd : DAC8571_HandleTypeDef) (value : Nat) (hv : value < 2 ^ 16) :
    DAC8571_Write tr bus (some hd) value =
      (let t := tr.transmit bus (hd.address * 2 % 2 ^ 16)
          [hd.writeMode, value / 2 ^ 8, value % 2 ^ 8] 100
       if t.2 = HALStatus.ok then
         (t.1, some { hd with lastValue := value, lastError := DAC8571_OK },
          HALStatus.ok)
       else
         (t.1, some { hd with lastError := DAC8571_I2C_ERROR }, t.2)) := by
  have h1 : value % 2 ^ 16 = value := Nat.mod_eq_of_lt hv
  have h2 : value / 2 ^ 8 % 2 ^ 8 = value / 2 ^ 8 := by
    have : value / 2 ^ 8 < 2 ^ 8 := Nat.div_lt_of_lt_mul (by norm_num at hv ⊢; omega)
    exact Nat.mod_eq_of_lt this
  simp only [DAC8571_Write, DAC8571_Write_core, h1, h2]
  by_cases h : (tr.transmit bus (hd.address * 2 % 65536)
      [hd.writeMode, value / 256, value % 256] 100).2 = HALStatus.ok
  · simp [h]
  · simp [h]

/-- Witness for C1 at the recording transport, handle
`⟨0x4C, 0, 0x10, 0⟩` and value `0x1234`. -/
theorem DAC8571_Write_correct_witness :
    DAC8571_Write (recTransport okScript) recInit
        (some ⟨0x4C, 0, 0x10, 0⟩) 0x1234 =
      (let t := (recTransport okScript).transmit recInit (0x4C * 2 % 2 ^ 16)
          [(0x10 : Nat), 0x1234 / 2 ^ 8, 0x1234 % 2 ^ 8] 100
       if t.2 = HALStatus.ok then
         (t.1, some { (⟨0x4C, 0, 0x10, 0⟩ : DAC8571_HandleTypeDef) with
            lastValue := 0x1234, lastError := DAC8571_OK }, HALStatus.ok)
       else
         (t.1, some { (⟨0x4C, 0, 0x10, 0⟩ : DAC8571_HandleTypeDef) with
            lastError := DAC8571_I2C_ERROR }, t.2)) :=
  DAC8571_Write_correct (recTransport okScript) recInit ⟨0x4C, 0, 0x10, 0⟩ 0x1234
    (by decide)

/-- C9: for every 16-bit value `x`, a successful `DAC8571_Write x` followed
by `DAC8571_Read` returns `x`, over the faithful loopback transport. -/
theorem DAC8571_write_read_roundtrip (s : LoopState)
    (hd : DAC8571_HandleTypeDef) (x : Nat) (hx : x < 2 ^ 16) :
    (DAC8571_Write loopbackTransport s (some hd) x).2.2 = HALStatus.ok ∧
    (DAC8571_Read loopbackTransport
        (DAC8571_Write loopbackTransport s (some hd) x).1
        (DAC8571_Write loopbackTransport s (some hd) x).2.1).2.2 = x := by
  have h1 : x % 2 ^ 16 = x := Nat.mod_eq_of_lt hx
  have h2 : x / 2 ^ 8 % 2 ^ 8 = x / 2 ^ 8 := by
    have : x / 2 ^ 8 < 2 ^ 8 := Nat.div_lt_of_lt_mul (by norm_num at hx ⊢; omega)
    exact Nat.mod_eq_of_lt this
  refine ⟨by simp [DAC8571_Write, DAC8571_Write_core, loopbackTransport], ?_⟩
  simp only [DAC8571_Write, DAC8571_Write_core, DAC8571_Read, loopbackTransport,
    h1, h2]
  norm_num
  omega

/-- Witness for C9 at `x = 0xBEEF`. -/
theorem DAC8571_write_read_roundtrip_witness :
    (DAC8571_Write loopbackTransport ⟨0, 0⟩ (some ⟨0x4C, 0, 0x10, 0⟩) 0xBEEF).2.2
        = HALStatus.ok ∧
    (DAC8571_Read loopbackTransport
        (DAC8571_Write loopbackTransport ⟨0, 0⟩ (some ⟨0x4C, 0, 0x10, 0⟩) 0xBEEF).1
        (DAC8571_Write loopbackTransport ⟨0, 0⟩
          (some ⟨0x4C, 0, 0x10, 0⟩) 0xBEEF).2.1).2.2 = 0xBEEF :=
  DAC8571_write_read_roundtrip ⟨0, 0⟩ ⟨0x4C, 0, 0x10, 0⟩ 0xBEEF (by decide)

/-!
### Helper lemmas: field preservation of the core operations
-/

/-- `DAC8571_Write_core` never touches `address` or `writeMode`, and leaves
`lastError` equal to `OK` or `I2C_ERROR`. -/
theorem DAC8571_Write_core_fields {τ : Type} (tr : Transport τ) (bus : τ)
    (hd : DAC8571_HandleTypeDef) (v : Nat) :
    (DAC8571_Write_core tr bus hd v).2.1.address = hd.address ∧
    (DAC8571_Write_core tr bus hd v).2.1.writeMode = hd.writeMode ∧
    ((DAC8571_Write_core tr bus hd v).2.1.lastError = DAC8571_OK ∨
     (DAC8571_Write_core tr bus hd v).2.1.lastError = DAC8571_I2C_ERROR) := by
  simp only [DAC8571_Write_core]
  split <;> simp

/-- `DAC8571_IsConnected_core` never touches `address`, `lastValue` or
`writeMode`, and leaves `lastError` unchanged or equal to `I2C_ERROR`. -/
theorem DAC8571_IsConnected_core_fields {τ : Type} (tr : Transport τ) (bus : τ)
    (hd : DAC8571_HandleTypeDef) :
    (DAC8571_IsConnected_core tr bus hd).2.1.address = hd.address ∧
    (DAC8571_IsConnected_core tr bus hd).2.1.lastValue = hd.lastValue ∧
    (DAC8571_IsConnected_core tr bus hd).2.1.writeMode = hd.writeMode ∧
    ((DAC8571_IsConnected_core tr bus hd).2.1.lastError = hd.lastError ∨
     (DAC8571_IsConnected_core tr bus hd).2.1.lastError = DAC8571_I2C_ERROR) := by
  simp only [DAC8571_IsConnected_core]
  split <;> simp

/-- The `DAC8571_WriteArray` loop never touches `address` or `writeMode`,
and leaves `lastError` unchanged or equal to `OK` or `I2C_ERROR`. -/
theorem writeArrayLoop_fields {τ : Type} (tr : Transport τ) :
    ∀ (l : List Nat) (bus : τ) (hd : DAC8571_HandleTypeDef),
    (writeArrayLoop tr bus hd l).2.1.address = hd.address ∧
    (writeArrayLoop tr bus hd l).2.1.writeMode = hd.writeMode ∧
    ((writeArrayLoop tr bus hd l).2.1.lastError = hd.lastError ∨
     (writeArrayLoop tr bus hd l).2.1.lastError = DAC8571_OK ∨
     (writeArrayLoop tr bus hd l).2.1.lastError = DAC8571_I2C_ERROR)
  | [], bus, hd => by simp [writeArrayLoop]
  | v :: rest, bus, hd => by
      have hw := DAC8571_Write_core_fields tr bus hd v
      have ih := writeArrayLoop_fields tr rest (DAC8571_Write_core tr bus hd v).1
        (DAC8571_Write_core tr bus hd v).2.1
      simp only [writeArrayLoop]
      split
      · exact ⟨hw.1, hw.2.1, Or.inr hw.2.2⟩
      · refine ⟨ih.1.trans hw.1, ih.2.1.trans hw.2.1, ?_⟩
        rcases ih.2.2 with h | h | h
        · rw [h]
          exact Or.inr hw.2.2
        · exact Or.inr (Or.inl h)
        · exact Or.inr (Or.inr h)

/-- The `DAC8571_Init` probe loop never touches `address`, `lastValue` or
`writeMode`, and leaves `lastError` unchanged or equal to `I2C_ERROR`. -/
theorem initProbeLoop_fields {τ : Type} (tr : Transport τ) :
    ∀ (n : Nat) (bus : τ) (hd : DAC8571_HandleTypeDef),
    (initProbeLoop tr bus hd n).2.1.address = hd.address ∧
    (initProbeLoop tr bus hd n).2.1.lastValue = hd.lastValue ∧
    (initProbeLoop tr bus hd n).2.1.writeMode = hd.writeMode ∧
    ((initProbeLoop tr bus hd n).2.1.lastError = hd.lastError ∨
     (initProbeLoop tr bus hd n).2.1.lastError = DAC8571_I2C_ERROR)
  | 0, bus, hd => by simp [initProbeLoop]
  | n + 1, bus, hd => by
      have hc := DAC8571_IsConnected_core_fields tr bus hd
      have ih := initProbeLoop_fields tr n
        ((tr.delay (DAC8571_IsConnected_core tr bus hd).1 25))
        (DAC8571_IsConnected_core tr bus hd).2.1
      simp only [initProbeLoop]
      split
      · exact hc
      · refine ⟨ih.1.trans hc.1, ih.2.1.trans hc.2.1, ih.2.2.1.trans hc.2.2.1, ?_⟩
        rcases ih.2.2.2 with h | h
        · rw [h]
          exact hc.2.2.2
        · exact Or.inr h

/-- C5: `DAC8571_GetLastError` on a non-null handle returns the current
`lastError` and resets it to `DAC8571_OK`, so a second call returns `OK`;
after a `DAC8571_Write` whose transmit failed, the first call returns
`DAC8571_I2C_ERROR` and the next returns `OK`; after a successful
`DAC8571_Write`, every call returns `OK`. -/
theorem DAC8571_GetLastError_read_and_clear (hd : DAC8571_HandleTypeDef)
    (script : Nat → HALStatus) (v : Nat) (hfail : script 0 ≠ HALStatus.ok) :
    (DAC8571_GetLastError (some hd)
        = (some { hd with lastError := DAC8571_OK }, hd.lastError)) ∧
    ((DAC8571_GetLastError (DAC8571_GetLastError (some hd)).1).2 = DAC8571_OK) ∧
    ((DAC8571_GetLastError
        (DAC8571_Write (recTransport script) recInit (some hd) v).2.1).2
      = DAC8571_I2C_ERROR) ∧
    ((DAC8571_GetLastError (DAC8571_GetLastError
        (DAC8571_Write (recTransport script) recInit (some hd) v).2.1).1).2
      = DAC8571_OK) ∧
    ((DAC8571_GetLastError
        (DAC8571_Write (recTransport okScript) recInit (some hd) v).2.1).2
      = DAC8571_OK) ∧
    ((DAC8571_GetLastError (DAC8571_GetLastError
        (DAC8571_Write (recTransport okScript) recInit (some hd) v).2.1).1).2
      = DAC8571_OK) := by
  refine ⟨rfl, rfl, ?_, ?_, ?_, ?_⟩ <;>
    simp [DAC8571_GetLastError, DAC8571_Write, DAC8571_Write_core,
      recTransport, recInit, okScript, hfail]

/-- Witness for C5 with the always-failing script, handle
`⟨0x4C, 7, 0x10, 0⟩` and value 3. -/
theorem DAC8571_GetLastError_read_and_clear_witness :
    (DAC8571_GetLastError (some ⟨0x4C, 7, 0x10, 0⟩)
        = (some { (⟨0x4C, 7, 0x10, 0⟩ : DAC8571_HandleTypeDef) with
            lastError := DAC8571_OK }, (0 : Int))) ∧
    ((DAC8571_GetLastError
        (DAC8571_GetLastError (some ⟨0x4C, 7, 0x10, 0⟩)).1).2 = DAC8571_OK) ∧
    ((DAC8571_GetLastError
        (DAC8571_Write (recTransport fun _ => HALStatus.error) recInit
          (some ⟨0x4C, 7, 0x10, 0⟩) 3).2.1).2 = DAC8571_I2C_ERROR) ∧
    ((DAC8571_GetLastError (DAC8571_GetLastError
        (DAC8571_Write (recTransport fun _ => HALStatus.error) recInit
          (some ⟨0x4C, 7, 0x10, 0⟩) 3).2.1).1).2 = DAC8571_OK) ∧
    ((DAC8571_GetLastError
        (DAC8571_Write (recTransport okScript) recInit
          (some ⟨0x4C, 7, 0x10, 0⟩) 3).2.1).2 = DAC8571_OK) ∧
    ((DAC8571_GetLastError (DAC8571_GetLastError
        (DAC8571_Write (recTransport okScript) recInit
          (some ⟨0x4C, 7, 0x10, 0⟩) 3).2.1).1).2 = DAC8571_OK) :=
  DAC8571_GetLastError_read_and_clear ⟨0x4C, 7, 0x10, 0⟩
    (fun _ => HALStatus.error) 3 (by decide)

/-- C7: `DAC8571_SetWriteMode` on a non-null handle accepts exactly the 8
enumerated command bytes, storing the mode and returning `HAL_OK`; every
other byte returns `HAL_ERROR` and leaves the stored `writeMode` unchanged. -/
theorem DAC8571_SetWriteMode_correct (hd : DAC8571_HandleTypeDef) (mode : Nat)
    (hm : mode < 2 ^ 8) :
    (mode ∈ validWriteModes →
      DAC8571_SetWriteMode (some hd) mode
        = (some { hd with writeMode := mode }, HALStatus.ok)) ∧
    (mode ∉ validWriteModes →
      DAC8571_SetWriteMode (some hd) mode = (some hd, HALStatus.error)) := by
  have h1 : mode % 256 = mode := Nat.mod_eq_of_lt (by simpa using hm)
  constructor <;> intro h <;> simp [DAC8571_SetWriteMode, h1, h]

/-- Witness for C7 at the accepted mode `0x20` and the rejected byte
`0x32`. -/
theorem DAC8571_SetWriteMode_correct_witness :
    (DAC8571_SetWriteMode (some ⟨0x4C, 0, 0x10, 0⟩) 0x20
        = (some { (⟨0x4C, 0, 0x10, 0⟩ : DAC8571_HandleTypeDef) with
            writeMode := 0x20 }, HALStatus.ok)) ∧
    (DAC8571_SetWriteMode (some ⟨0x4C, 0, 0x10, 0⟩) 0x32
        = (some ⟨0x4C, 0, 0x10, 0⟩, HALStatus.error)) :=
  ⟨(DAC8571_SetWriteMode_correct ⟨0x4C, 0, 0x10, 0⟩ 0x20 (by decide)).1
      (by decide),
   (DAC8571_SetWriteMode_correct ⟨0x4C, 0, 0x10, 0⟩ 0x32 (by decide)).2
      (by decide)⟩

/-- C4: for each of the 5 valid power-down modes, `DAC8571_PowerMode`
transmits the write-temp-with-power-down command byte (0x01) followed by the
16-bit value `field * 2 ^ 13` (3-bit field in bits 15–13, all other bits
zero, high byte `field * 2 ^ 13 / 2 ^ 8`, low byte 0), per the fixed table
`pdTable`, and sets `writeMode` to `DAC8571_CMD_WRITE_TMP_PWDN` regardless of
the previously stored write mode and of the transmit outcome. -/
theorem DAC8571_PowerMode_correct (hd : DAC8571_HandleTypeDef)
    (script : Nat → HALStatus) (pd field : Nat)
    (hmem : (pd, field) ∈ pdTable) :
    (DAC8571_PowerMode (recTransport script) recInit (some hd) pd).1.trace
      = [BusEvent.tx (hd.address * 2 % 2 ^ 16)
          [DAC8571_CMD_WRITE_TMP_PWDN, field * 2 ^ 13 / 2 ^ 8, 0] 100] ∧
    field * 2 ^ 13 / 2 ^ 13 = field ∧ field * 2 ^ 13 % 2 ^ 13 = 0 ∧
    field * 2 ^ 13 < 2 ^ 16 ∧
    (∀ hd', (DAC8571_PowerMode (recTransport script) recInit (some hd) pd).2.1
        = some hd' → hd'.writeMode = DAC8571_CMD_WRITE_TMP_PWDN) := by
  simp only [pdTable, DAC8571_PD_LOW_POWER, DAC8571_PD_FAST, DAC8571_PD_1_KOHM,
    DAC8571_PD_100_KOHM, DAC8571_PD_HI_Z, List.mem_cons, List.not_mem_nil,
    or_false, Prod.mk.injEq] at hmem
  rcases hmem with ⟨hp, hf⟩ | ⟨hp, hf⟩ | ⟨hp, hf⟩ | ⟨hp, hf⟩ | ⟨hp, hf⟩ <;>
    subst hp <;> subst hf <;>
    refine ⟨?_, by norm_num, by norm_num, by norm_num, ?_⟩ <;>
    by_cases hs : script 0 = HALStatus.ok <;>
    simp [DAC8571_PowerMode, DAC8571_Write, DAC8571_Write_core, recTransport,
      recInit, DAC8571_CMD_WRITE_TMP_PWDN, DAC8571_PD_LOW_POWER,
      DAC8571_PD_FAST, DAC8571_PD_1_KOHM, DAC8571_PD_100_KOHM,
      DAC8571_PD_HI_Z, hs]

/-- Witness for C4 at the 100 kΩ pull-down mode (field `0b110`). -/
theorem DAC8571_PowerMode_correct_witness :
    (DAC8571_PowerMode (recTransport okScript) recInit
        (some ⟨0x4C, 0, 0x10, 0⟩) DAC8571_PD_100_KOHM).1.trace
      = [BusEvent.tx (0x4C * 2 % 2 ^ 16)
          [DAC8571_CMD_WRITE_TMP_PWDN, 6 * 2 ^ 13 / 2 ^ 8, 0] 100] ∧
    6 * 2 ^ 13 / 2 ^ 13 = 6 ∧ 6 * 2 ^ 13 % 2 ^ 13 = 0 ∧
    6 * 2 ^ 13 < 2 ^ 16 ∧
    (∀ hd', (DAC8571_PowerMode (recTransport okScript) recInit
        (some ⟨0x4C, 0, 0x10, 0⟩) DAC8571_PD_100_KOHM).2.1
        = some hd' → hd'.writeMode = DAC8571_CMD_WRITE_TMP_PWDN) :=
  DAC8571_PowerMode_correct ⟨0x4C, 0, 0x10, 0⟩ okScript DAC8571_PD_100_KOHM 6
    (by decide)

/-- C2: for every rational voltage `v ∈ [0, REF_VOLTAGE]`, `DAC8571_SetVoltage`
writes exactly the code `floor (v / REF_VOLTAGE * 65535)` (truncation): it
performs one transmit of that code's frame and on success records it in
`lastValue`; `v = 0` yields code 0 and `v = REF_VOLTAGE` yields code 65535. -/
theorem DAC8571_SetVoltage_correct (hd : DAC8571_HandleTypeDef) (v : ℚ)
    (h0 : 0 ≤ v) (h1 : v ≤ DAC8571_REF_VOLTAGE) :
    ((voltageCode v : ℤ) = Int.floor (v / DAC8571_REF_VOLTAGE * 65535)) ∧
    (DAC8571_SetVoltage (recTransport okScript) recInit (some hd) v
      = (⟨[writeFrame hd (voltageCode v)], 1⟩,
         some { hd with lastValue := voltageCode v, lastError := DAC8571_OK },
         HALStatus.ok)) ∧
    (v = 0 → voltageCode v = 0) ∧
    (v = DAC8571_REF_VOLTAGE → voltageCode v = 65535) := by
  have hrefpos : (0 : ℚ) < DAC8571_REF_VOLTAGE := by norm_num [DAC8571_REF_VOLTAGE]
  have hq0 : (0 : ℚ) ≤ v / DAC8571_REF_VOLTAGE * 65535 :=
    mul_nonneg (div_nonneg h0 hrefpos.le) (by norm_num)
  have hq1 : v / DAC8571_REF_VOLTAGE * 65535 ≤ 65535 := by
    have hd1 : v / DAC8571_REF_VOLTAGE ≤ 1 := by
      rw [div_le_one hrefpos]
      exact h1
    nlinarith
  have hfl0 : (0 : ℤ) ≤ Int.floor (v / DAC8571_REF_VOLTAGE * 65535) :=
    Int.floor_nonneg.mpr hq0
  have hfl1 : Int.floor (v / DAC8571_REF_VOLTAGE * 65535) ≤ 65535 := by
    have h := Int.floor_le_floor (α := ℚ) hq1
    simpa using h
  have hcast : (voltageCode v : ℤ) = Int.floor (v / DAC8571_REF_VOLTAGE * 65535) := by
    unfold voltageCode
    exact Int.toNat_of_nonneg hfl0
  have hcode : voltageCode v < 65536 := by
    unfold voltageCode
    omega
  have hguard : ¬(v < 0 ∨ v > DAC8571_REF_VOLTAGE) := by
    push_neg
    exact ⟨h0, h1⟩
  refine ⟨hcast, ?_, ?_, ?_⟩
  · have hm : voltageCode v % 65536 = voltageCode v := Nat.mod_eq_of_lt hcode
    have hm2 : voltageCode v / 256 % 256 = voltageCode v / 256 :=
      Nat.mod_eq_of_lt (Nat.div_lt_of_lt_mul (by omega))
    simp [DAC8571_SetVoltage, DAC8571_Write, DAC8571_Write_core, recTransport,
      recInit, okScript, writeFrame, hguard, hm, hm2]
  · intro hv
    subst hv
    norm_num [voltageCode]
  · intro hv
    subst hv
    have hone : DAC8571_REF_VOLTAGE / DAC8571_REF_VOLTAGE = (1 : ℚ) := by
      norm_num [DAC8571_REF_VOLTAGE]
    rw [voltageCode, hone, one_mul]
    decide

/-- Witness for C2 at `v = 1` V (code `⌊1 / 2.5 * 65535⌋ = 26214`). -/
theorem DAC8571_SetVoltage_correct_witness :
    ((voltageCode 1 : ℤ) = Int.floor ((1 : ℚ) / DAC8571_REF_VOLTAGE * 65535)) ∧
    (DAC8571_SetVoltage (recTransport okScript) recInit
        (some ⟨0x4C, 0, 0x10, 0⟩) 1
      = (⟨[writeFrame ⟨0x4C, 0, 0x10, 0⟩ (voltageCode 1)], 1⟩,
         some { (⟨0x4C, 0, 0x10, 0⟩ : DAC8571_HandleTypeDef) with
            lastValue := voltageCode 1, lastError := DAC8571_OK },
         HALStatus.ok)) ∧
    ((1 : ℚ) = 0 → voltageCode 1 = 0) ∧
    ((1 : ℚ) = DAC8571_REF_VOLTAGE → voltageCode 1 = 65535) :=
  DAC8571_SetVoltage_correct ⟨0x4C, 0, 0x10, 0⟩ 1 (by norm_num)
    (by norm_num [DAC8571_REF_VOLTAGE])

/-- `writeFrame` only depends on the handle's `address` and `writeMode`. -/
theorem writeFrame_congr (hd hd' : DAC8571_HandleTypeDef)
    (ha : hd'.address = hd.address) (hw : hd'.writeMode = hd.writeMode) :
    writeFrame hd' = writeFrame hd := by
  funext v
  simp [writeFrame, ha, hw]

/-- `DAC8571_Write_core` over the recording transport: one transmit of
`writeFrame hd v`, consuming one script entry. -/
theorem DAC8571_Write_core_rec (script : Nat → HALStatus) (st : RecState)
    (hd : DAC8571_HandleTypeDef) (v : Nat) (hv : v < 2 ^ 16) :
    DAC8571_Write_core (recTransport script) st hd v
      = (⟨st.trace ++ [writeFrame hd v], st.count + 1⟩,
         if script st.count = HALStatus.ok then
           ({ hd with lastValue := v, lastError := DAC8571_OK }, HALStatus.ok)
         else
           ({ hd with lastError := DAC8571_I2C_ERROR }, script st.count)) := by
  have h1 : v % 65536 = v := Nat.mod_eq_of_lt (by simpa using hv)
  have h2 : v / 256 % 256 = v / 256 :=
    Nat.mod_eq_of_lt (Nat.div_lt_of_lt_mul (by simpa using hv))
  by_cases hs : script st.count = HALStatus.ok <;>
    simp [DAC8571_Write_core, recTransport, writeFrame, h1, h2, hs]

/-- The `DAC8571_WriteArray` loop over the recording transport when every
scripted transmit succeeds: status `HAL_OK`, one frame per element, in
order. -/
theorem writeArrayLoop_rec_ok (script : Nat → HALStatus) :
    ∀ (l : List Nat) (st : RecState) (hd : DAC8571_HandleTypeDef),
    (∀ i, i < l.length → script (st.count + i) = HALStatus.ok) →
    (∀ v ∈ l, v < 2 ^ 16) →
    (writeArrayLoop (recTransport script) st hd l).2.2 = HALStatus.ok ∧
    (writeArrayLoop (recTransport script) st hd l).1
      = ⟨st.trace ++ l.map (writeFrame hd), st.count + l.length⟩
  | [], st, hd => by
      intro _ _
      simp [writeArrayLoop]
  | v :: rest, st, hd => by
      intro hok helem
      have hv : v < 2 ^ 16 := helem v (List.mem_cons_self v rest)
      have hs0 : script st.count = HALStatus.ok := by
        simpa using hok 0 (by simp)
      have hw := DAC8571_Write_core_rec script st hd v hv
      have ih := writeArrayLoop_rec_ok script rest ⟨st.trace ++ [writeFrame hd v], st.count + 1⟩
        { hd with lastValue := v, lastError := DAC8571_OK }
        (by
          intro i hi
          have := hok (i + 1) (by simpa using Nat.succ_lt_succ hi)
          simpa [Nat.add_assoc, Nat.add_comm 1 i] using this)
        (fun w hw => helem w (List.mem_cons_of_mem v hw))
      have hcong : writeFrame { hd with lastValue := v, lastError := DAC8571_OK }
          = writeFrame hd := writeFrame_congr hd _ rfl rfl
      have hw' : DAC8571_Write_core (recTransport script) st hd v
          = (⟨st.trace ++ [writeFrame hd v], st.count + 1⟩,
             { hd with lastValue := v, lastError := DAC8571_OK },
             HALStatus.ok) := by
        rw [hw, hs0]
        simp
      constructor
      · simp only [writeArrayLoop, hw']
        simpa using ih.1
      · simp only [writeArrayLoop, hw', ne_eq, not_true_eq_false,
          reduceIte]
        rw [ih.2, hcong]
        simp [List.append_assoc]
        omega

/-- The `DAC8571_WriteArray` loop over the recording transport when the
scripted transmit `j` is the first to fail: the loop stops after frame
`j + 1` and returns that transmit's status. -/
theorem writeArrayLoop_rec_fail (script : Nat → HALStatus) :
    ∀ (l : List Nat) (st : RecState) (hd : DAC8571_HandleTypeDef) (j : Nat),
    j < l.length →
    (∀ i, i < j → script (st.count + i) = HALStatus.ok) →
    script (st.count + j) ≠ HALStatus.ok →
    (∀ v ∈ l, v < 2 ^ 16) →
    (writeArrayLoop (recTransport script) st hd l).2.2 = script (st.count + j) ∧
    (writeArrayLoop (recTransport script) st hd l).1
      = ⟨st.trace ++ (l.take (j + 1)).map (writeFrame hd), st.count + j + 1⟩
  | [], st, hd, j => by
      intro hj
      simp at hj
  | v :: rest, st, hd, j => by
      intro hj hok hfail helem
      have hv : v < 2 ^ 16 := helem v (List.mem_cons_self v rest)
      have hw := DAC8571_Write_core_rec script st hd v hv
      cases j with
      | zero =>
          have hs0 : ¬ script st.count = HALStatus.ok := by simpa using hfail
          have hw' : DAC8571_Write_core (recTransport script) st hd v
              = (⟨st.trace ++ [writeFrame hd v], st.count + 1⟩,
                 { hd with lastError := DAC8571_I2C_ERROR }, script st.count) := by
            rw [hw]
            simp [hs0]
          constructor
          · simp [writeArrayLoop, hw', hs0]
          · simp [writeArrayLoop, hw', hs0]
      | succ k =>
          have hs0 : script st.count = HALStatus.ok := by
            simpa using hok 0 (Nat.succ_pos k)
          have hw' : DAC8571_Write_core (recTransport script) st hd v
              = (⟨st.trace ++ [writeFrame hd v], st.count + 1⟩,
                 { hd with lastValue := v, lastError := DAC8571_OK },
                 HALStatus.ok) := by
            rw [hw, hs0]
            simp
          have hcong : writeFrame { hd with lastValue := v, lastError := DAC8571_OK }
              = writeFrame hd := writeFrame_congr hd _ rfl rfl
          have ih := writeArrayLoop_rec_fail script rest
            ⟨st.trace ++ [writeFrame hd v], st.count + 1⟩
            { hd with lastValue := v, lastError := DAC8571_OK } k
            (by simpa using Nat.lt_of_succ_lt_succ hj)
            (by
              intro i hi
              have := hok (i + 1) (Nat.succ_lt_succ hi)
              simpa [Nat.add_assoc, Nat.add_comm 1 i] using this)
            (by
              have harr : st.count + 1 + k = st.count + (k + 1) := by omega
              rw [harr]
              exact hfail)
            (fun w hwm => helem w (List.mem_cons_of_mem v hwm))
          have harr : st.count + 1 + k = st.count + (k + 1) := by omega
          constructor
          · simp only [writeArrayLoop, hw', ne_eq, not_true_eq_false, reduceIte]
            rw [ih.1, harr]
          · simp only [writeArrayLoop, hw', ne_eq, not_true_eq_false, reduceIte]
            rw [ih.2, hcong]
            simp [List.append_assoc, List.take_succ_cons]
            omega

/-- C3 counterexample: `DAC8571_WriteArray` with a *null* array and
`length = 20 > 14` returns failure with no bus transaction, but does NOT set
`lastError = DAC8571_BUFFER_ERROR` — the null-array check fires first and
leaves the handle unchanged, refuting the claim's "sets lastError to
BUFFER_ERROR exactly when length > 14". -/
theorem DAC8571_WriteArray_buffer_error_cex :
    (DAC8571_WriteArray (recTransport okScript) recInit
        (some ⟨0x4C, 0, 0x10, DAC8571_OK⟩) none 20).2.2 = HALStatus.error ∧
    (DAC8571_WriteArray (recTransport okScript) recInit
        (some ⟨0x4C, 0, 0x10, DAC8571_OK⟩) none 20).1.trace = [] ∧
    (DAC8571_WriteArray (recTransport okScript) recInit
        (some ⟨0x4C, 0, 0x10, DAC8571_OK⟩) none 20).2.1
      = some ⟨0x4C, 0, 0x10, DAC8571_OK⟩ ∧
    (20 : Nat) > 14 ∧
    (DAC8571_OK : Int) ≠ DAC8571_BUFFER_ERROR := by
  decide

/-- C3 (amended): `DAC8571_WriteArray` with a null handle, null sequence or
`length = 0` returns failure with no bus transaction and no state change;
with a non-null handle and sequence and `length > 14` it returns failure
with no bus transaction and sets `lastError = DAC8571_BUFFER_ERROR` (so
`BUFFER_ERROR` is set exactly when handle and sequence are non-null and
`length > 14`); for `length ∈ [1, 14]` (within the sequence) it issues
exactly `length` sequential writes of the elements in order when all
transmits succeed, and stops at the first failing write, returning its
status, having transmitted exactly the first `j + 1` elements. -/
theorem DAC8571_WriteArray_correct (script : Nat → HALStatus)
    (hd : DAC8571_HandleTypeDef) (l : List Nat) (length : Nat)
    (hlen8 : length < 2 ^ 8) (helem : ∀ v ∈ l, v < 2 ^ 16) :
    (DAC8571_WriteArray (recTransport script) recInit none (some l) length
      = (recInit, none, HALStatus.error)) ∧
    (DAC8571_WriteArray (recTransport script) recInit (some hd) none length
      = (recInit, some hd, HALStatus.error)) ∧
    (DAC8571_WriteArray (recTransport script) recInit (some hd) (some l) 0
      = (recInit, some hd, HALStatus.error)) ∧
    (14 < length →
      DAC8571_WriteArray (recTransport script) recInit (some hd) (some l) length
        = (recInit, some { hd with lastError := DAC8571_BUFFER_ERROR },
           HALStatus.error)) ∧
    (1 ≤ length → length ≤ 14 → length ≤ l.length →
      (∀ i, i < length → script i = HALStatus.ok) →
      (DAC8571_WriteArray (recTransport script) recInit (some hd) (some l)
          length).2.2 = HALStatus.ok ∧
      (DAC8571_WriteArray (recTransport script) recInit (some hd) (some l)
          length).1.trace = (l.take length).map (writeFrame hd) ∧
      ((l.take length).map (writeFrame hd)).length = length) ∧
    (∀ j, 1 ≤ length → length ≤ 14 → length ≤ l.length → j < length →
      (∀ i, i < j → script i = HALStatus.ok) → script j ≠ HALStatus.ok →
      (DAC8571_WriteArray (recTransport script) recInit (some hd) (some l)
          length).2.2 = script j ∧
      (DAC8571_WriteArray (recTransport script) recInit (some hd) (some l)
          length).1.trace = (l.take (j + 1)).map (writeFrame hd)) := by
  have hmod : length % 256 = length := Nat.mod_eq_of_lt (by simpa using hlen8)
  refine ⟨?_, ?_, ?_, ?_, ?_, ?_⟩
  · simp [DAC8571_WriteArray]
  · simp [DAC8571_WriteArray]
  · simp [DAC8571_WriteArray]
  · intro h14
    have h0 : ¬ length = 0 := by omega
    simp [DAC8571_WriteArray, hmod, h0, h14]
  · intro h1 h14 hll hok
    have h0 : ¬ length = 0 := by omega
    have hnot14 : ¬ 14 < length := by omega
    have htk : (l.take length).length = length := by
      simp [List.length_take]
      omega
    have hmod2 : length % 2 ^ 8 = length := Nat.mod_eq_of_lt hlen8
    have hunfold : DAC8571_WriteArray (recTransport script) recInit (some hd)
        (some l) length
        = ((writeArrayLoop (recTransport script) recInit hd (l.take length)).1,
           some (writeArrayLoop (recTransport script) recInit hd
             (l.take length)).2.1,
           (writeArrayLoop (recTransport script) recInit hd
             (l.take length)).2.2) := by
      simp only [DAC8571_WriteArray]
      rw [hmod2, if_neg h0, if_neg hnot14]
    have hloop := writeArrayLoop_rec_ok script (l.take length) recInit hd
      (by
        intro i hi
        rw [htk] at hi
        simpa [recInit] using hok i hi)
      (fun v hv => helem v (List.take_subset _ _ hv))
    refine ⟨?_, ?_, ?_⟩
    · rw [hunfold]
      exact hloop.1
    · rw [hunfold]
      show (writeArrayLoop (recTransport script) recInit hd
          (l.take length)).1.trace = (l.take length).map (writeFrame hd)
      rw [hloop.2]
      simp [recInit]
    · simp only [List.length_map]
      exact htk
  · intro j h1 h14 hll hj hok hfail
    have h0 : ¬ length = 0 := by omega
    have hnot14 : ¬ 14 < length := by omega
    have htk : (l.take length).length = length := by
      simp [List.length_take]
      omega
    have hmod2 : length % 2 ^ 8 = length := Nat.mod_eq_of_lt hlen8
    have hunfold : DAC8571_WriteArray (recTransport script) recInit (some hd)
        (some l) length
        = ((writeArrayLoop (recTransport script) recInit hd (l.take length)).1,
           some (writeArrayLoop (recTransport script) recInit hd
             (l.take length)).2.1,
           (writeArrayLoop (recTransport script) recInit hd
             (l.take length)).2.2) := by
      simp only [DAC8571_WriteArray]
      rw [hmod2, if_neg h0, if_neg hnot14]
    have hloop := writeArrayLoop_rec_fail script (l.take length) recInit hd j
      (by rw [htk]; exact hj)
      (by
        intro i hi
        simpa [recInit] using hok i hi)
      (by simpa [recInit] using hfail)
      (fun v hv => helem v (List.take_subset _ _ hv))
    have htt : (l.take length).take (j + 1) = l.take (j + 1) := by
      rw [List.take_take]
      congr 1
      omega
    refine ⟨?_, ?_⟩
    · rw [hunfold]
      show (writeArrayLoop (recTransport script) recInit hd
          (l.take length)).2.2 = script j
      rw [hloop.1]
      congr 1
      simp [recInit]
    · rw [hunfold]
      show (writeArrayLoop (recTransport script) recInit hd
          (l.take length)).1.trace = (l.take (j + 1)).map (writeFrame hd)
      rw [hloop.2, htt]
      simp [recInit]

/-- Witness for C3 (the in-range all-success conjunct) at
`l = [1, 2]`, `length = 2`. -/
theorem DAC8571_WriteArray_correct_witness :
    (DAC8571_WriteArray (recTransport okScript) recInit
        (some ⟨0x4C, 0, 0x10, 0⟩) (some [1, 2]) 2).2.2 = HALStatus.ok ∧
    (DAC8571_WriteArray (recTransport okScript) recInit
        (some ⟨0x4C, 0, 0x10, 0⟩) (some [1, 2]) 2).1.trace
      = (([1, 2] : List Nat).take 2).map (writeFrame ⟨0x4C, 0, 0x10, 0⟩) ∧
    ((([1, 2] : List Nat).take 2).map (writeFrame ⟨0x4C, 0, 0x10, 0⟩)).length
      = 2 :=
  (DAC8571_WriteArray_correct okScript ⟨0x4C, 0, 0x10, 0⟩ [1, 2] 2 (by decide)
      (by decide)).2.2.2.2.1 (by decide) (by decide) (by decide)
    (fun _ _ => rfl)

/-- C6 counterexample: `DAC8571_PowerMode` with the invalid power-down mode
`0xFF` rejects the argument without touching the bus, yet does NOT leave the
handle as it was: `writeMode` is set to `DAC8571_CMD_WRITE_TMP_PWDN` (0x01)
before the mode is validated, so a handle with `writeMode = 0x10` comes back
changed. -/
theorem DAC8571_PowerMode_invalid_mutates_cex :
    (DAC8571_PowerMode (recTransport okScript) recInit
        (some ⟨0x4C, 0, 0x10, 0⟩) 0xFF).2.2 = HALStatus.error ∧
    (DAC8571_PowerMode (recTransport okScript) recInit
        (some ⟨0x4C, 0, 0x10, 0⟩) 0xFF).1.trace = [] ∧
    (DAC8571_PowerMode (recTransport okScript) recInit
        (some ⟨0x4C, 0, 0x10, 0⟩) 0xFF).2.1 = some ⟨0x4C, 0, 0x01, 0⟩ ∧
    some (⟨0x4C, 0, 0x01, 0⟩ : DAC8571_HandleTypeDef)
      ≠ some (⟨0x4C, 0, 0x10, 0⟩ : DAC8571_HandleTypeDef) := by
  decide

/-- C6 (amended): every invalid-argument rejection happens synchronously,
with no bus transaction and no handle mutation — except that
`DAC8571_PowerMode` with an invalid `pdMode` has already overwritten
`writeMode` with `DAC8571_CMD_WRITE_TMP_PWDN`, and `DAC8571_WriteArray` with
an oversized length sets `lastError = BUFFER_ERROR` (as the spec notes).
In particular `DAC8571_Init` with a null transport or an address outside
`{0x4C, 0x4E}` leaves the handle exactly as it was.  Stated over an
arbitrary transport: the result bus state is the input bus state, untouched. -/
theorem DAC8571_invalid_args_no_mutation {τ : Type} (tr : Transport τ)
    (bus : τ) (hd : DAC8571_HandleTypeDef) (v : ℚ) (m pd addr len : Nat)
    (l : List Nat)
    (hv : v < 0 ∨ v > DAC8571_REF_VOLTAGE)
    (hm8 : m < 2 ^ 8) (hmv : m ∉ validWriteModes)
    (hpd8 : pd < 2 ^ 8) (hpdv : 4 < pd)
    (haddr8 : addr < 2 ^ 8) (haddrv : addr ≠ 0x4C ∧ addr ≠ 0x4E)
    (hlen : 14 < len) (hlen8 : len < 2 ^ 8) :
    (DAC8571_Init tr bus (some hd) none addr = (bus, some hd)) ∧
    (DAC8571_Init tr bus (some hd) (some ()) addr = (bus, some hd)) ∧
    (DAC8571_SetVoltage tr bus (some hd) v = (bus, some hd, HALStatus.error)) ∧
    (DAC8571_SetWriteMode (some hd) m = (some hd, HALStatus.error)) ∧
    (DAC8571_WriteArray tr bus (some hd) (some l) len
      = (bus, some { hd with lastError := DAC8571_BUFFER_ERROR },
         HALStatus.error)) ∧
    (DAC8571_PowerMode tr bus (some hd) pd
      = (bus, some { hd with writeMode := DAC8571_CMD_WRITE_TMP_PWDN },
         HALStatus.error)) := by
  have hmm : m % 2 ^ 8 = m := Nat.mod_eq_of_lt hm8
  have hpdm : pd % 2 ^ 8 = pd := Nat.mod_eq_of_lt hpd8
  have haddrm : addr % 2 ^ 8 = addr := Nat.mod_eq_of_lt haddr8
  have hlenm : len % 2 ^ 8 = len := Nat.mod_eq_of_lt hlen8
  have hlen0 : ¬ len = 0 := by omega
  refine ⟨?_, ?_, ?_, ?_, ?_, ?_⟩
  · simp [DAC8571_Init]
  · simp only [DAC8571_Init]
    rw [haddrm, if_pos haddrv]
  · simp [DAC8571_SetVoltage, hv]
  · simp only [DAC8571_SetWriteMode]
    rw [hmm, if_neg hmv]
  · simp only [DAC8571_WriteArray]
    rw [hlenm, if_neg hlen0, if_pos hlen]
  · simp only [DAC8571_PowerMode]
    rw [hpdm]
    rw [if_neg (by simp [DAC8571_PD_LOW_POWER]; omega),
        if_neg (by simp [DAC8571_PD_FAST]; omega),
        if_neg (by simp [DAC8571_PD_1_KOHM]; omega),
        if_neg (by simp [DAC8571_PD_100_KOHM]; omega),
        if_neg (by simp [DAC8571_PD_HI_Z]; omega)]

/-- Witness for C6 at `v = 3` V, `m = 0x32`, `pd = 0xFF`, `addr = 0x4D`,
`len = 20`, `l = []`, over the recording transport. -/
theorem DAC8571_invalid_args_no_mutation_witness :
    (DAC8571_Init (recTransport okScript) recInit
        (some ⟨0x4C, 0, 0x10, 0⟩) none 0x4D = (recInit, some ⟨0x4C, 0, 0x10, 0⟩)) ∧
    (DAC8571_Init (recTransport okScript) recInit
        (some ⟨0x4C, 0, 0x10, 0⟩) (some ()) 0x4D
      = (recInit, some ⟨0x4C, 0, 0x10, 0⟩)) ∧
    (DAC8571_SetVoltage (recTransport okScript) recInit
        (some ⟨0x4C, 0, 0x10, 0⟩) 3
      = (recInit, some ⟨0x4C, 0, 0x10, 0⟩, HALStatus.error)) ∧
    (DAC8571_SetWriteMode (some ⟨0x4C, 0, 0x10, 0⟩) 0x32
      = (some ⟨0x4C, 0, 0x10, 0⟩, HALStatus.error)) ∧
    (DAC8571_WriteArray (recTransport okScript) recInit
        (some ⟨0x4C, 0, 0x10, 0⟩) (some []) 20
      = (recInit, some { (⟨0x4C, 0, 0x10, 0⟩ : DAC8571_HandleTypeDef) with
          lastError := DAC8571_BUFFER_ERROR }, HALStatus.error)) ∧
    (DAC8571_PowerMode (recTransport okScript) recInit
        (some ⟨0x4C, 0, 0x10, 0⟩) 0xFF
      = (recInit, some { (⟨0x4C, 0, 0x10, 0⟩ : DAC8571_HandleTypeDef) with
          writeMode := DAC8571_CMD_WRITE_TMP_PWDN }, HALStatus.error)) :=
  DAC8571_invalid_args_no_mutation (recTransport okScript) recInit
    ⟨0x4C, 0, 0x10, 0⟩ 3 0x32 0xFF 0x4D 20 []
    (by norm_num [DAC8571_REF_VOLTAGE]) (by decide) (by decide) (by decide)
    (by decide) (by decide) (by decide) (by decide) (by decide)

/-- Every driver operation maps a null handle to a null handle. -/
theorem runOp_none {τ : Type} (tr : Transport τ) (bus : τ) (op : DacOp) :
    (runOp tr bus none op).2 = none := by
  cases op <;>
    simp [runOp, DAC8571_Init, DAC8571_Write, DAC8571_WriteArray, DAC8571_Read,
      DAC8571_IsConnected, DAC8571_SetVoltage, DAC8571_SetWriteMode,
      DAC8571_PowerMode, DAC8571_WakeUp, DAC8571_Reset, DAC8571_GetLastError]

/-- The invariant only mentions `address` and `writeMode`, so it transfers
along operations that preserve those fields. -/
theorem HandleInv_of_fields (hd hd' : DAC8571_HandleTypeDef)
    (ha : hd'.address = hd.address) (hw : hd'.writeMode = hd.writeMode)
    (hinv : HandleInv hd) : HandleInv hd' := by
  unfold HandleInv at hinv ⊢
  rw [ha, hw]
  exact hinv

/-- One driver operation preserves the state invariant `HandleInv`. -/
theorem runOp_preserves_inv {τ : Type} (tr : Transport τ) (bus : τ)
    (h : Option DAC8571_HandleTypeDef) (op : DacOp)
    (hinv : ∀ hd, h = some hd → HandleInv hd) :
    ∀ hd', (runOp tr bus h op).2 = some hd' → HandleInv hd' := by
  intro hd' hres
  cases h with
  | none =>
      rw [runOp_none] at hres
      cases hres
  | some hd =>
      have hdinv : HandleInv hd := hinv hd rfl
      cases op with
      | init hi2c addr =>
          cases hi2c with
          | none =>
              simp [runOp, DAC8571_Init] at hres
              exact hres ▸ hdinv
          | some u =>
              simp only [runOp, DAC8571_Init] at hres
              by_cases hval : addr % 2 ^ 8 ≠ 0x4C ∧ addr % 2 ^ 8 ≠ 0x4E
              · rw [if_pos hval] at hres
                simp at hres
                exact hres ▸ hdinv
              · rw [if_neg hval] at hres
                simp at hres
                have hf := initProbeLoop_fields tr 5
                  (if tr.getBusyFlag bus then tr.clearBusyFlag bus else bus)
                  { hd with
                      address := addr % 256,
                      lastValue := 0,
                      writeMode := DAC8571_CMD_WRITE_AND_UPDATE_DAC,
                      lastError := DAC8571_OK }
                refine hres ▸ ⟨?_, ?_⟩
                · rw [hf.1]
                  show addr % 256 = 0x4C ∨ addr % 256 = 0x4E
                  rcases not_and_or.mp hval with hc | hc
                  · exact Or.inl (not_not.mp hc)
                  · exact Or.inr (not_not.mp hc)
                · rw [hf.2.2.1]
                  show DAC8571_CMD_WRITE_AND_UPDATE_DAC ∈ validWriteModes
                  decide
      | write value =>
          simp only [runOp, DAC8571_Write] at hres
          simp at hres
          have hf := DAC8571_Write_core_fields tr bus hd value
          exact hres ▸ HandleInv_of_fields hd _ hf.1 hf.2.1 hdinv
      | writeArray arr len =>
          cases arr with
          | none =>
              simp [runOp, DAC8571_WriteArray] at hres
              exact hres ▸ hdinv
          | some l =>
              simp only [runOp, DAC8571_WriteArray] at hres
              by_cases h0 : len % 2 ^ 8 = 0
              · rw [if_pos h0] at hres
                simp at hres
                exact hres ▸ hdinv
              · rw [if_neg h0] at hres
                by_cases h14 : len % 2 ^ 8 > 14
                · rw [if_pos h14] at hres
                  simp at hres
                  exact hres ▸ ⟨hdinv.1, hdinv.2⟩
                · rw [if_neg h14] at hres
                  simp at hres
                  have hf := writeArrayLoop_fields tr (l.take (len % 2 ^ 8)) bus hd
                  exact hres ▸ HandleInv_of_fields hd _ hf.1 hf.2.1 hdinv
      | read =>
          simp only [runOp, DAC8571_Read] at hres
          split at hres <;> simp at hres <;>
            exact hres ▸ ⟨hdinv.1, hdinv.2⟩
      | isConnected =>
          simp only [runOp, DAC8571_IsConnected] at hres
          simp at hres
          have hf := DAC8571_IsConnected_core_fields tr bus hd
          exact hres ▸ HandleInv_of_fields hd _ hf.1 hf.2.2.1 hdinv
      | setVoltage v =>
          simp only [runOp, DAC8571_SetVoltage] at hres
          split at hres
          · simp at hres
            exact hres ▸ hdinv
          · simp only [DAC8571_Write] at hres
            simp at hres
            have hf := DAC8571_Write_core_fields tr bus hd (voltageCode v)
            exact hres ▸ HandleInv_of_fields hd _ hf.1 hf.2.1 hdinv
      | setWriteMode m =>
          simp only [runOp, DAC8571_SetWriteMode] at hres
          split at hres
          · rename_i hmem
            simp at hres
            exact hres ▸ ⟨hdinv.1, hmem⟩
          · simp at hres
            exact hres ▸ hdinv
      | getWriteMode =>
          simp only [runOp] at hres
          simp at hres
          exact hres ▸ hdinv
      | powerMode pd =>
          have hinv1 : HandleInv { hd with writeMode := DAC8571_CMD_WRITE_TMP_PWDN } :=
            ⟨hdinv.1, by
              show DAC8571_CMD_WRITE_TMP_PWDN ∈ validWriteModes
              decide⟩
          simp only [runOp, DAC8571_PowerMode, DAC8571_Write] at hres
          repeat' split at hres
          all_goals simp at hres
          all_goals
            first
            | exact hres ▸ HandleInv_of_fields _ _
                (DAC8571_Write_core_fields tr bus _ _).1
                (DAC8571_Write_core_fields tr bus _ _).2.1 hinv1
            | exact hres ▸ hinv1
      | wakeUp value =>
          simp only [runOp, DAC8571_WakeUp, DAC8571_Write] at hres
          simp at hres
          have hf := DAC8571_Write_core_fields tr bus hd value
          exact hres ▸ HandleInv_of_fields hd _ hf.1 hf.2.1 hdinv
      | reset =>
          simp only [runOp, DAC8571_Reset, DAC8571_Write] at hres
          simp at hres
          have hf := DAC8571_Write_core_fields tr bus hd 0
          exact hres ▸ HandleInv_of_fields hd _ hf.1 hf.2.1 hdinv
      | getLastError =>
          simp only [runOp, DAC8571_GetLastError] at hres
          simp at hres
          exact hres ▸ ⟨hdinv.1, hdinv.2⟩
      | getAddress =>
          simp only [runOp] at hres
          simp at hres
          exact hres ▸ hdinv

/-- A sequence of driver operations preserves the state invariant. -/
theorem runOps_preserves_inv {τ : Type} (tr : Transport τ) :
    ∀ (ops : List DacOp) (s : τ × Option DAC8571_HandleTypeDef),
    (∀ hd, s.2 = some hd → HandleInv hd) →
    ∀ hd', (runOps tr ops s).2 = some hd' → HandleInv hd'
  | [], _, hinv => hinv
  | op :: ops, s, hinv => by
      intro hd' hres
      simp only [runOps] at hres
      exact runOps_preserves_inv tr ops (runOp tr s.1 s.2 op)
        (runOp_preserves_inv tr s.1 s.2 op hinv) hd' hres

/-- C8: a successful `DAC8571_Init` (whitelisted address) establishes the
invariant — `address ∈ {0x4C, 0x4E}`, `writeMode` set to the
write-and-update command, hence in the valid command set — and every
subsequent sequence of driver operations preserves it: `SetWriteMode` stores
only validated modes, `PowerMode` stores only `0x01`, and no other operation
touches `address` or `writeMode`. -/
theorem DAC8571_invariant_established_and_preserved {τ : Type}
    (tr : Transport τ) (bus : τ) (hd0 : DAC8571_HandleTypeDef) (addr : Nat)
    (ops : List DacOp)
    (haddr : addr % 2 ^ 8 = 0x4C ∨ addr % 2 ^ 8 = 0x4E) :
    (∀ hd1, (DAC8571_Init tr bus (some hd0) (some ()) addr).2 = some hd1 →
      hd1.writeMode = DAC8571_CMD_WRITE_AND_UPDATE_DAC ∧ HandleInv hd1) ∧
    (∀ hd', (runOps tr ops (DAC8571_Init tr bus (some hd0) (some ()) addr)).2
        = some hd' → HandleInv hd') := by
  have hval : ¬ (addr % 2 ^ 8 ≠ 0x4C ∧ addr % 2 ^ 8 ≠ 0x4E) := by
    intro hc
    rcases haddr with h | h
    · exact hc.1 h
    · exact hc.2 h
  have hinit : ∀ hd1, (DAC8571_Init tr bus (some hd0) (some ()) addr).2
      = some hd1 →
      hd1.writeMode = DAC8571_CMD_WRITE_AND_UPDATE_DAC ∧ HandleInv hd1 := by
    intro hd1 hres
    simp only [DAC8571_Init] at hres
    rw [if_neg hval] at hres
    simp at hres
    have hf := initProbeLoop_fields tr 5
      (if tr.getBusyFlag bus then tr.clearBusyFlag bus else bus)
      { hd0 with
          address := addr % 256,
          lastValue := 0,
          writeMode := DAC8571_CMD_WRITE_AND_UPDATE_DAC,
          lastError := DAC8571_OK }
    refine ⟨?_, ?_, ?_⟩
    · rw [← hres, hf.2.2.1]
    · rw [← hres, hf.1]
      show addr % 256 = 0x4C ∨ addr % 256 = 0x4E
      exact haddr
    · rw [← hres, hf.2.2.1]
      show DAC8571_CMD_WRITE_AND_UPDATE_DAC ∈ validWriteModes
      decide
  refine ⟨hinit, ?_⟩
  exact runOps_preserves_inv tr ops _ (fun hd h => (hinit hd h).2)

/-- Witness for C8: initialize at address `0x4C` over the recording
transport, then run a write, a mode change and a power-down. -/
theorem DAC8571_invariant_established_and_preserved_witness :
    (∀ hd1, (DAC8571_Init (recTransport okScript) recInit (some ⟨0, 0, 0, 0⟩)
        (some ()) 0x4C).2 = some hd1 →
      hd1.writeMode = DAC8571_CMD_WRITE_AND_UPDATE_DAC ∧ HandleInv hd1) ∧
    (∀ hd', (runOps (recTransport okScript)
        [DacOp.write 5, DacOp.setWriteMode 0x30, DacOp.powerMode 2]
        (DAC8571_Init (recTransport okScript) recInit (some ⟨0, 0, 0, 0⟩)
          (some ()) 0x4C)).2 = some hd' → HandleInv hd') :=
  DAC8571_invariant_established_and_preserved (recTransport okScript) recInit
    ⟨0, 0, 0, 0⟩ 0x4C [DacOp.write 5, DacOp.setWriteMode 0x30, DacOp.powerMode 2]
    (by decide)

/-- One driver operation leaves `lastError` unchanged or sets it to
`DAC8571_OK`, `DAC8571_I2C_ERROR` or `DAC8571_BUFFER_ERROR` — those are the
only values ever stored. -/
theorem runOp_lastError_cases {τ : Type} (tr : Transport τ) (bus : τ)
    (hd : DAC8571_HandleTypeDef) (op : DacOp) :
    ∀ hd', (runOp tr bus (some hd) op).2 = some hd' →
      hd'.lastError = hd.lastError ∨ hd'.lastError = DAC8571_OK ∨
      hd'.lastError = DAC8571_I2C_ERROR ∨
      hd'.lastError = DAC8571_BUFFER_ERROR := by
  intro hd' hres
  cases op with
  | init hi2c addr =>
      cases hi2c with
      | none =>
          simp [runOp, DAC8571_Init] at hres
          subst hres
          exact Or.inl rfl
      | some u =>
          simp only [runOp, DAC8571_Init] at hres
          by_cases hval : addr % 2 ^ 8 ≠ 0x4C ∧ addr % 2 ^ 8 ≠ 0x4E
          · rw [if_pos hval] at hres
            simp at hres
            subst hres
            exact Or.inl rfl
          · rw [if_neg hval] at hres
            simp at hres
            have hf := initProbeLoop_fields tr 5
              (if tr.getBusyFlag bus then tr.clearBusyFlag bus else bus)
              { hd with
                  address := addr % 256,
                  lastValue := 0,
                  writeMode := DAC8571_CMD_WRITE_AND_UPDATE_DAC,
                  lastError := DAC8571_OK }
            rw [← hres]
            rcases hf.2.2.2 with h | h
            · exact Or.inr (Or.inl (h.trans rfl))
            · exact Or.inr (Or.inr (Or.inl h))
  | write value =>
      simp only [runOp, DAC8571_Write] at hres
      simp at hres
      rw [← hres]
      rcases (DAC8571_Write_core_fields tr bus hd value).2.2 with h | h
      · exact Or.inr (Or.inl h)
      · exact Or.inr (Or.inr (Or.inl h))
  | writeArray arr len =>
      cases arr with
      | none =>
          simp [runOp, DAC8571_WriteArray] at hres
          subst hres
          exact Or.inl rfl
      | some l =>
          simp only [runOp, DAC8571_WriteArray] at hres
          by_cases h0 : len % 2 ^ 8 = 0
          · rw [if_pos h0] at hres
            simp at hres
            subst hres
            exact Or.inl rfl
          · rw [if_neg h0] at hres
            by_cases h14 : len % 2 ^ 8 > 14
            · rw [if_pos h14] at hres
              simp at hres
              rw [← hres]
              exact Or.inr (Or.inr (Or.inr rfl))
            · rw [if_neg h14] at hres
              simp at hres
              rw [← hres]
              rcases (writeArrayLoop_fields tr (l.take (len % 2 ^ 8))
                  bus hd).2.2 with h | h | h
              · exact Or.inl h
              · exact Or.inr (Or.inl h)
              · exact Or.inr (Or.inr (Or.inl h))
  | read =>
      simp only [runOp, DAC8571_Read] at hres
      split at hres <;> simp at hres <;> rw [← hres]
      · exact Or.inr (Or.inr (Or.inl rfl))
      · exact Or.inr (Or.inl rfl)
  | isConnected =>
      simp only [runOp, DAC8571_IsConnected] at hres
      simp at hres
      rw [← hres]
      rcases (DAC8571_IsConnected_core_fields tr bus hd).2.2.2 with h | h
      · exact Or.inl h
      · exact Or.inr (Or.inr (Or.inl h))
  | setVoltage v =>
      simp only [runOp, DAC8571_SetVoltage] at hres
      split at hres
      · simp at hres
        subst hres
        exact Or.inl rfl
      · simp only [DAC8571_Write] at hres
        simp at hres
        rw [← hres]
        rcases (DAC8571_Write_core_fields tr bus hd (voltageCode v)).2.2 with h | h
        · exact Or.inr (Or.inl h)
        · exact Or.inr (Or.inr (Or.inl h))
  | setWriteMode m =>
      simp only [runOp, DAC8571_SetWriteMode] at hres
      split at hres <;> simp at hres <;> rw [← hres] <;> exact Or.inl rfl
  | getWriteMode =>
      simp only [runOp] at hres
      simp at hres
      subst hres
      exact Or.inl rfl
  | powerMode pd =>
      simp only [runOp, DAC8571_PowerMode, DAC8571_Write] at hres
      repeat' split at hres
      all_goals simp at hres
      all_goals rw [← hres]
      all_goals
        first
        | · rcases (DAC8571_Write_core_fields tr bus
                { hd with writeMode := DAC8571_CMD_WRITE_TMP_PWDN } _).2.2
              with h | h
            · exact Or.inr (Or.inl h)
            · exact Or.inr (Or.inr (Or.inl h))
        | exact Or.inl rfl
  | wakeUp value =>
      simp only [runOp, DAC8571_WakeUp, DAC8571_Write] at hres
      simp at hres
      rw [← hres]
      rcases (DAC8571_Write_core_fields tr bus hd value).2.2 with h | h
      · exact Or.inr (Or.inl h)
      · exact Or.inr (Or.inr (Or.inl h))
  | reset =>
      simp only [runOp, DAC8571_Reset, DAC8571_Write] at hres
      simp at hres
      rw [← hres]
      rcases (DAC8571_Write_core_fields tr bus hd 0).2.2 with h | h
      · exact Or.inr (Or.inl h)
      · exact Or.inr (Or.inr (Or.inl h))
  | getLastError =>
      simp only [runOp, DAC8571_GetLastError] at hres
      simp at hres
      rw [← hres]
      exact Or.inr (Or.inl rfl)
  | getAddress =>
      simp only [runOp] at hres
      simp at hres
      subst hres
      exact Or.inl rfl

/-- A sequence of driver operations never stores `DAC8571_ADDRESS_ERROR`
into `lastError`. -/
theorem runOps_no_address_error {τ : Type} (tr : Transport τ) :
    ∀ (ops : List DacOp) (s : τ × Option DAC8571_HandleTypeDef),
    (∀ hd, s.2 = some hd → hd.lastError ≠ DAC8571_ADDRESS_ERROR) →
    ∀ hd', (runOps tr ops s).2 = some hd' →
      hd'.lastError ≠ DAC8571_ADDRESS_ERROR
  | [], _, hpre => hpre
  | op :: ops, s, hpre => by
      intro hd' hres
      simp only [runOps] at hres
      refine runOps_no_address_error tr ops (runOp tr s.1 s.2 op) ?_ hd' hres
      intro hd1 h1
      cases hs : s.2 with
      | none =>
          rw [hs, runOp_none] at h1
          cases h1
      | some hd0 =>
          rw [hs] at h1
          rcases runOp_lastError_cases tr s.1 hd0 op hd1 h1 with h | h | h | h
          · rw [h]
            exact hpre hd0 hs
          · rw [h]
            decide
          · rw [h]
            decide
          · rw [h]
            decide

/-- C10: `DAC8571_GetLastError` on a null handle returns
`DAC8571_ADDRESS_ERROR` (0x82), not `DAC8571_OK`; and that is the only way
`ADDRESS_ERROR` is ever produced: starting from any handle whose `lastError`
is not `ADDRESS_ERROR`, no sequence of driver operations (including
`DAC8571_Init` with an invalid address) ever stores `ADDRESS_ERROR` in
`lastError`. -/
theorem DAC8571_address_error_only_for_null_handle {τ : Type}
    (tr : Transport τ) (bus : τ) (h : Option DAC8571_HandleTypeDef)
    (ops : List DacOp)
    (hpre : ∀ hd, h = some hd → hd.lastError ≠ DAC8571_ADDRESS_ERROR) :
    (DAC8571_GetLastError none = (none, DAC8571_ADDRESS_ERROR)) ∧
    DAC8571_ADDRESS_ERROR = 0x82 ∧
    DAC8571_ADDRESS_ERROR ≠ DAC8571_OK ∧
    (∀ hd', (runOps tr ops (bus, h)).2 = some hd' →
      hd'.lastError ≠ DAC8571_ADDRESS_ERROR) := by
  refine ⟨rfl, rfl, by decide, ?_⟩
  exact runOps_no_address_error tr ops (bus, h) hpre

/-- Witness for C10: start from a fresh handle and run an invalid-address
init, a write and an error read-out over the recording transport. -/
theorem DAC8571_address_error_only_for_null_handle_witness :
    (DAC8571_GetLastError none = (none, DAC8571_ADDRESS_ERROR)) ∧
    DAC8571_ADDRESS_ERROR = 0x82 ∧
    DAC8571_ADDRESS_ERROR ≠ DAC8571_OK ∧
    (∀ hd', (runOps (recTransport okScript)
        [DacOp.init (some ()) 0x30, DacOp.write 1, DacOp.getLastError]
        (recInit, some ⟨0x4C, 0, 0x10, 0⟩)).2 = some hd' →
      hd'.lastError ≠ DAC8571_ADDRESS_ERROR) :=
  DAC8571_address_error_only_for_null_handle (recTransport okScript) recInit
    (some ⟨0x4C, 0, 0x10, 0⟩)
    [DacOp.init (some ()) 0x30, DacOp.write 1, DacOp.getLastError]
    (fun hd hhd => by
      cases hhd
      decide)
